import Mathlib

/-!
Verification development for the training/evaluation orchestration engine of
deep-object-reid (`torchreid/engine/engine.py`).

The Python code is shallowly embedded: pure fragments become Lean functions,
stateful methods become explicit state passing, Python floats become `ℚ`
(the engine only compares and copies metric/LR values, so exact rationals model
the intent of the arithmetic), `None`-able values become `Option`, and code
paths that raise become `Except`.  Library helpers that live in this repository
but outside the extracted sources (`torchreid.utils`, `torchreid.metrics`) are
either abstracted as parameters or modelled from the specification, as marked
in their doc comments.
-/

/-! ## Checkpoint selector (`Engine.exit_on_plateau_and_choose_best`) -/

/-- Round-half-to-even on rationals: the rounding rule used by `np.round`
(ties go to the even integer).  Written directly over the numerator and
denominator so that it evaluates by kernel reduction: with `f = ⌊q⌋`, the
fractional part `q - f` equals `(q.num - f * q.den) / q.den`, so comparing it
with `1/2` is comparing `c = 2 * (q.num - f * q.den)` with `q.den`. -/
def roundHalfEven (q : ℚ) : ℤ :=
  let f := q.floor
  let c := 2 * (q.num - f * (q.den : ℤ))
  if c < (q.den : ℤ) then f
  else if (q.den : ℤ) < c then f + 1
  else if f % 2 = 0 then f else f + 1

/-- Embedding of `np.round(top1, 4)` from
`Engine.exit_on_plateau_and_choose_best` (engine.py line 239): round-half-even
at four decimal places.  `q * 10000` is formed as
`Rat.divInt (q.num * 10000) q.den` (exact for rationals). -/
def np_round4 (q : ℚ) : ℚ :=
  Rat.divInt (roundHalfEven (Rat.divInt (q.num * 10000) (q.den : ℤ))) 10000

/-- The mutable selector state of `Engine` used by
`exit_on_plateau_and_choose_best`: `self.best_metric`, `self.iter_to_wait` and
`self.lr_prev_best_metric`.  `lr_prev_best_metric` starts as `None` and is
later assigned `lr_of_previous_iter`, itself possibly `None`; a single
`Option ℚ` models both, matching Python where `None == None` is `True`. -/
structure SelState where
  best_metric : ℚ
  iter_to_wait : ℕ
  lr_prev_best_metric : Option ℚ
deriving DecidableEq, Repr

/-- The selector state set up in `Engine.__init__` (engine.py lines 71-73):
`iter_to_wait = 0`, `best_metric = 0.0`, `lr_prev_best_metric = None`. -/
def initSelState : SelState := { best_metric := 0, iter_to_wait := 0, lr_prev_best_metric := none }

/-- Embedding of `Engine.exit_on_plateau_and_choose_best` (engine.py lines
214-255).  Inputs: the configured floor `lb_lr` and `train_patience`, the
current selector state, `self.lr_of_previous_iter` and the `top1` argument.
Output: the new selector state and the returned pair
`(should_exit, is_candidate_for_best)`. -/
def exit_on_plateau_and_choose_best (lb_lr : ℚ) (train_patience : ℕ)
    (s : SelState) (lr_of_previous_iter : Option ℚ) (top1 : ℚ) :
    SelState × Bool × Bool :=
  let last_lr := lr_of_previous_iter
  let current_metric := np_round4 top1
  if s.lr_prev_best_metric = last_lr ∧ current_metric ≤ s.best_metric then
    -- not best
    let iter_to_wait := s.iter_to_wait + 1
    let should_exit :=
      match last_lr with
      | some l => decide (l ≤ lb_lr) && decide (train_patience ≤ iter_to_wait)
      | none => false
    ({ s with iter_to_wait := iter_to_wait }, should_exit, false)
  else
    -- best for this LR
    ({ best_metric := current_metric, iter_to_wait := 0, lr_prev_best_metric := last_lr },
     false, true)

/-- Runs `exit_on_plateau_and_choose_best` over a list of
`(lr_of_previous_iter, top1)` call arguments, returning for every call the
state after the call together with the returned
`(should_exit, is_candidate_for_best)` pair. -/
def runSelector (lb_lr : ℚ) (train_patience : ℕ) :
    SelState → List (Option ℚ × ℚ) → List (SelState × Bool × Bool)
  | _, [] => []
  | s, c :: rest =>
    let r := exit_on_plateau_and_choose_best lb_lr train_patience s c.1 c.2
    r :: runSelector lb_lr train_patience r.1 rest

/-! ## Epoch-interval policy (`EpochIntervalToValue`,
`_get_cur_action_from_epoch_interval`) -/

/-- Embedding of the namedtuple `EpochIntervalToValue` (engine.py line 23). -/
structure EpochIntervalToValue (α : Type) where
  first : Option ℤ
  last : Option ℤ
  value_inside : α
  value_outside : α
deriving DecidableEq, Repr

/-- Python idiom `epoch_interval.first is not None and epoch < epoch_interval.first`. -/
def epochBelowFirst (first : Option ℤ) (epoch : ℤ) : Bool :=
  match first with
  | none => false
  | some f => decide (epoch < f)

/-- Python idiom `epoch_interval.last is not None and epoch > epoch_interval.last`. -/
def epochAboveLast (last : Option ℤ) (epoch : ℤ) : Bool :=
  match last with
  | none => false
  | some l => decide (l < epoch)

/-- Embedding of `_get_cur_action_from_epoch_interval` (engine.py lines 25-35).
The `RuntimeError` raised when both bounds are `None` becomes `Except.error`. -/
def _get_cur_action_from_epoch_interval {α : Type} (epoch_interval : EpochIntervalToValue α)
    (epoch : ℤ) : Except String α :=
  if epoch_interval.first = none ∧ epoch_interval.last = none then
    .error "Wrong epoch_interval"
  else if epochBelowFirst epoch_interval.first epoch then
    .ok epoch_interval.value_outside
  else if epochAboveLast epoch_interval.last epoch then
    .ok epoch_interval.value_outside
  else
    .ok epoch_interval.value_inside

/-! ## Evaluation dispatcher (`Engine.test`, engine.py lines 519-597)

`Engine.test` iterates datasets (outer loop) and registered models (inner
loop, in registration order), routes each pair to one of the evaluators by
the model capability tag, and copies the running `cur_top1/cur_top5/cur_mAP`
triple into the returned `top1/top5/mAP` triple exactly when `model_id == 0`.
The evaluator bodies are abstracted as result functions `evalCls`/`evalReid`
(their internals are settled separately); the `contrastive` branch is `pass`
and the pairwise branch (`dataset_name == 'lfw'`) assigns nothing, so in both
cases the `cur_*` variables keep their previous values, exactly as in the
Python local-variable flow.  All three `cur_*` (resp. `top*`) locals are only
ever assigned together, so each triple is modelled as one `Option` value
(initially `None`). -/

/-- Capability tag of a registered model, as probed by
`get_model_attr(model, 'classification')` / `get_model_attr(model, 'contrastive')`;
`reid` is the default (neither attribute set). -/
inductive ModelTag where
  | classification
  | contrastive
  | reid
deriving DecidableEq, Repr

/-- One inner-loop body of `Engine.test` for the model with index `mid` and
tag `tag` on dataset `ds`: the value of the `cur_*` triple after the branch.
`evalCls`/`evalReid` abstract `_evaluate_classification`/`_evaluate_reid` as
functions of the model index and dataset name. -/
def testEvalStep {T : Type} (evalCls evalReid : ℕ → String → T) (ds : String)
    (mid : ℕ) (tag : ModelTag) (cur : Option T) : Option T :=
  match tag with
  | .classification => some (evalCls mid ds)
  | .contrastive => cur
  | .reid => if ds = "lfw" then cur else some (evalReid mid ds)

/-- The inner model loop of `Engine.test` on dataset `ds`: state is the pair
`(top, cur)` of the returned triple and the running triple; `mid` is the
`enumerate` counter `model_id`. -/
def testModelLoop {T : Type} (evalCls evalReid : ℕ → String → T) (ds : String) :
    ℕ → List ModelTag → Option T × Option T → Option T × Option T
  | _, [], st => st
  | mid, tag :: rest, st =>
    let cur := testEvalStep evalCls evalReid ds mid tag st.2
    let top := if mid = 0 then cur else st.1
    testModelLoop evalCls evalReid ds (mid + 1) rest (top, cur)

/-- Embedding of `Engine.test` (engine.py lines 519-597): the outer dataset
loop folded over the inner model loop; returns the final `(top1, top5, mAP)`
triple (as one `Option`, `none` standing for the initial `(None, None, None)`). -/
def Engine.test {T : Type} (evalCls evalReid : ℕ → String → T)
    (models : List ModelTag) (datasets : List String) : Option T :=
  (datasets.foldl (fun st ds => testModelLoop evalCls evalReid ds 0 models st)
    (none, none)).1

/-! ## Model units, freezing and the `Engine.train` prologue -/

/-- A model as the freeze/unfreeze logic observes it: a fixed set of layer
names, the train/eval mode flag, and the currently trainable layers. -/
structure ModelUnit where
  layers : List String
  training : Bool
  trainable : List String
deriving DecidableEq, Repr

/-- Modelled from the spec: `open_all_layers` lives in `torchreid.utils`,
outside the extracted sources.  Spec: auxiliary models are unfrozen with
"all layers open" / in the layer policy "otherwise all layers are opened" —
every layer of the model becomes trainable. -/
def open_all_layers (u : ModelUnit) : ModelUnit :=
  { u with trainable := u.layers }

/-- Modelled from the spec: `open_specified_layers` lives in `torchreid.utils`,
outside the extracted sources.  Spec: "only those layers are made trainable on
every model" — the model's layers listed in `open_layers` become trainable and
every other layer is closed; freezing passes `[]`, yielding "zero trainable
layers". -/
def open_specified_layers (u : ModelUnit) (open_layers : List String) : ModelUnit :=
  { u with trainable := u.layers.filter (fun l => open_layers.contains l) }

/-- `model.train()`: sets the train-mode flag. -/
def ModelUnit.trainMode (u : ModelUnit) : ModelUnit := { u with training := true }

/-- `model.eval()`: clears the train-mode flag. -/
def ModelUnit.evalMode (u : ModelUnit) : ModelUnit := { u with training := false }

/-- Per-unit body of `Engine._freeze_aux_models` (engine.py lines 425-429):
`model.eval()` then `open_specified_layers(model, [])`. -/
def _freeze_aux_model_unit (u : ModelUnit) : ModelUnit :=
  open_specified_layers u.evalMode []

/-- Per-unit body of `Engine._unfreeze_aux_models` (engine.py lines 431-435):
`model.train()` then `open_all_layers(model)`. -/
def _unfreeze_aux_model_unit (u : ModelUnit) : ModelUnit :=
  open_all_layers u.trainMode

/-- Per-unit body of `Engine.two_stepped_transfer_learning` (engine.py lines
776-792): while `epoch + 1 <= fixbase_epoch` and `open_layers is not None`,
only the listed layers are opened; otherwise all layers are opened. -/
def two_stepped_transfer_learning_unit (epoch fixbase_epoch : ℕ)
    (open_layers : Option (List String)) (u : ModelUnit) : ModelUnit :=
  match open_layers with
  | some ls =>
    if epoch + 1 ≤ fixbase_epoch then open_specified_layers u ls
    else open_all_layers u
  | none => open_all_layers u

/-- The prologue of `Engine.train` (engine.py lines 444-457) as it acts on one
auxiliary (freeze-eligible) model unit, with `freeze_flag` the value of
`self._should_freeze_aux_models(self.epoch)` for this epoch:
`set_model_mode('train')`; if not flagged, `_unfreeze_aux_models`; then
`two_stepped_transfer_learning`; finally, if flagged, `_freeze_aux_models`. -/
def train_prologue_aux (freeze_flag : Bool) (epoch fixbase_epoch : ℕ)
    (open_layers : Option (List String)) (u : ModelUnit) : ModelUnit :=
  let u1 := u.trainMode
  let u2 := if freeze_flag then u1 else _unfreeze_aux_model_unit u1
  let u3 := two_stepped_transfer_learning_unit epoch fixbase_epoch open_layers u2
  if freeze_flag then _freeze_aux_model_unit u3 else u3

/-! ## Retrieval evaluation (`Engine._evaluate_reid` and its nested
`_feature_extraction`, engine.py lines 644-729)

The key line is engine.py line 670:

    features = model(imgs),

whose trailing comma builds the 1-tuple `(model(imgs),)`, after which line 671
runs `features.data.cpu()`.  A Python tuple has no attribute `data`, so this
raises `AttributeError` on the first batch.  The embedding keeps the Python
value structure (`PyObj`), models attribute access on the wrong shape as an
`Except.error`, and abstracts everything downstream of feature extraction
(distance matrices and `evaluate_rank` live in `torchreid.metrics`, outside
the extracted sources) as an opaque ranking function — none of it is reachable
for a non-empty loader. -/

/-- A Python runtime value as seen by `_feature_extraction`: a torch tensor or
a tuple of values. -/
inductive PyObj where
  | tensor (id : ℕ)
  | tup (items : List PyObj)
deriving Repr

/-- Attribute access `x.data`: defined on tensors, an `AttributeError` on a
tuple. -/
def PyObj.data : PyObj → Except String PyObj
  | .tensor i => .ok (.tensor i)
  | .tup _ => .error "AttributeError: tuple object has no attribute data"

/-- Method call `x.cpu()` on the (tensor) result of `.data`. -/
def PyObj.cpu : PyObj → PyObj
  | x => x

/-- `torch.cat(f_, 0)`: raises on an empty list; for a non-empty list the
concrete concatenated tensor value is irrelevant here (it is unreachable in
`_feature_extraction`, whose loop errors first), so the head is returned. -/
def torch_cat : List PyObj → Except String PyObj
  | [] => .error "RuntimeError: expected a non-empty list of Tensors"
  | x :: _ => .ok x

/-- The batch loop of `_feature_extraction` (engine.py lines 665-675), with
`model : ℕ → ℕ` the abstract forward pass on a batch of images and the loader
a list of batch identifiers.  Line 670 builds the 1-tuple
`PyObj.tup [PyObj.tensor (model b)]` — the embedded trailing comma — and line
671 accesses `.data` on it. -/
def feature_extraction_loop (model : ℕ → ℕ) :
    List ℕ → List PyObj → Except String (List PyObj)
  | [], acc => .ok acc
  | b :: rest, acc => do
    let features := PyObj.tup [PyObj.tensor (model b)]
    let features ← features.data
    let features := features.cpu
    feature_extraction_loop model rest (acc ++ [features])

/-- Embedding of the nested `_feature_extraction` (engine.py lines 663-681):
runs the batch loop, then `torch.cat` over the accumulated features. -/
def _feature_extraction (model : ℕ → ℕ) (loader : List ℕ) : Except String PyObj := do
  let f ← feature_extraction_loop model loader []
  torch_cat f

/-- Embedding of `Engine._evaluate_reid` (engine.py lines 644-729): extracts
query then gallery features; everything after extraction (optional L2
normalisation, the distance matrix under the configured metric, the optional
re-ranking pass and `evaluate_rank`) is abstracted as the opaque function
`rank` of the two extracted feature blocks, returning the
`(cmc[0], cmc[1], mAP)` triple. -/
def _evaluate_reid (model : ℕ → ℕ) (query_loader gallery_loader : List ℕ)
    (rank : PyObj → PyObj → ℚ × ℚ × ℚ) : Except String (ℚ × ℚ × ℚ) := do
  let qf ← _feature_extraction model query_loader
  let gf ← _feature_extraction model gallery_loader
  .ok (rank qf gf)

/-! ## The run loop (`Engine.run` and `Engine.train`, engine.py lines 257-514)

The loop skeleton is embedded with the opaque collaborators abstracted as
parameters: the LR in effect during a batch (`lr_at`, indexed by the global
count of completed batches — the value `self.get_current_lr()` recorded into
`self.lr_of_previous_iter` after that batch), and the primary top-1 metric a
`self.test(...)` call yields when `self.epoch` has a given value (`top1_at`).
The caller-supplied stop callback is modelled as a sticky signal `stop_at`:
`check_stop()` is positive once the global number of completed batches has
reached `stop_at` (cancellation tokens stay set once set).  Batch-level loss
and timing bookkeeping, printing and tensorboard writing have no effect on the
control flow or on the recorded trace and are omitted. -/

/-- Reasons `Engine.run` raises instead of returning a metric. -/
inductive RunErr where
  /-- `return top1_final` with `top1_final` never assigned
  (`UnboundLocalError`). -/
  | unboundLocalTop1Final
  /-- `save_model(self.epoch, ...)` with `self.epoch` still `None`, so the
  checkpoint field `'epoch': epoch + 1` computes `None + 1` (`TypeError`). -/
  | noneEpochArith
deriving DecidableEq, Repr

/-- One checkpoint persisted by `Engine.run` via `save_model`: the epoch
argument, the `is_best` flag, and whether it came from the post-loop final
save (engine.py line 410) rather than the in-loop periodic save (line 390). -/
structure SaveRec where
  epoch : ℕ
  is_best : Bool
  final : Bool
deriving DecidableEq, Repr

/-- Configuration and abstracted collaborators for one `Engine.run` call with
`test_only=False` (the claims below are about the training path). -/
structure RunCfg where
  start_epoch : ℕ
  max_epoch : ℕ
  /-- `len(self.train_loader)`, the number of batches per epoch. -/
  num_batches : ℕ
  start_eval : ℕ
  /-- `eval_freq` may be `-1` (the default: no periodic evaluation). -/
  eval_freq : ℤ
  save_chkpt : Bool
  early_stoping : Bool
  lr_finder : Bool
  lb_lr : ℚ
  train_patience : ℕ
  /-- The stop signal becomes (and stays) positive once this many batches have
  completed globally; `none` models a never-positive signal or no callback. -/
  stop_at : Option ℕ
  /-- LR in effect during the `n`-th completed batch (1-indexed globally). -/
  lr_at : ℕ → ℚ
  /-- Primary top-1 produced by `self.test(...)` when `self.epoch` holds the
  given value. -/
  top1_at : Option ℕ → ℚ

/-- `stop_callback.check_stop()` when `n` batches have completed globally. -/
def stopFired (cfg : RunCfg) (n : ℕ) : Bool :=
  match cfg.stop_at with
  | none => false
  | some k => decide (k ≤ n)

/-- The batch loop of `Engine.train` (engine.py lines 461-511): with `global_`
batches completed before this epoch and `r` batches remaining in it, returns
how many batches this epoch runs.  The stop poll happens after each batch
(line 510), so a batch in flight always completes. -/
def trainBatchCount (cfg : RunCfg) : ℕ → ℕ → ℕ
  | _, 0 => 0
  | global_, r + 1 =>
    if stopFired cfg (global_ + 1) then 1
    else 1 + trainBatchCount cfg (global_ + 1) r

/-- The state threaded through the epoch loop of `Engine.run`. -/
structure LoopSt where
  sel : SelState
  /-- `self.lr_of_previous_iter` (engine.py line 509). -/
  lr_prev : Option ℚ
  /-- Global number of completed batches. -/
  global_ : ℕ
  /-- Per epoch actually entered: `(epoch, batches completed in it)`. -/
  log : List (ℕ × ℕ)
  saves : List SaveRec
  /-- `self.epoch`: `None` until the loop first assigns it. -/
  last_epoch : Option ℕ
  /-- A `break` has run; remaining loop iterations are skipped. -/
  brk : Bool
deriving Repr

/-- The loop state on entry to the epoch loop. -/
def initLoopSt : LoopSt :=
  { sel := initSelState, lr_prev := none, global_ := 0, log := [], saves := [],
    last_epoch := none, brk := false }

/-- The periodic-evaluation guard of `Engine.run` (engine.py lines 365-368):
`(epoch+1) >= start_eval and eval_freq > 0 and (epoch+1) % eval_freq == 0 and
(epoch+1) != max_epoch`. -/
def evalCond (cfg : RunCfg) (e : ℕ) : Bool :=
  decide (cfg.start_eval ≤ e + 1) && decide (0 < cfg.eval_freq) &&
    decide (((e : ℤ) + 1) % cfg.eval_freq = 0) && decide (e + 1 ≠ cfg.max_epoch)

/-- One iteration of the epoch loop of `Engine.run` (engine.py lines 351-393):
run `self.train(...)` (the batch loop; LR bookkeeping), poll the stop
callback, then optionally evaluate, feed the checkpoint selector, persist the
periodic checkpoint and honour early stopping. -/
def runEpoch (cfg : RunCfg) (st : LoopSt) (e : ℕ) : LoopSt :=
  if st.brk then st
  else
    let processed := trainBatchCount cfg st.global_ cfg.num_batches
    let g := st.global_ + processed
    let lrp := if processed = 0 then st.lr_prev else some (cfg.lr_at g)
    let st1 : LoopSt :=
      { st with
        global_ := g
        lr_prev := lrp
        log := st.log ++ [(e, processed)]
        last_epoch := some e }
    if stopFired cfg g then { st1 with brk := true }
    else if evalCond cfg e then
      if cfg.lr_finder then st1
      else
        let r := exit_on_plateau_and_choose_best cfg.lb_lr cfg.train_patience
          st1.sel lrp (cfg.top1_at (some e))
        let shouldExit := cfg.early_stoping && r.2.1
        let st2 : LoopSt :=
          { st1 with
            sel := r.1
            saves := if cfg.save_chkpt then st1.saves ++ [⟨e, r.2.2, false⟩]
              else st1.saves }
        if shouldExit then { st2 with brk := true } else st2
    else st1

/-- The epoch loop: `for self.epoch in range(self.start_epoch, self.max_epoch)`. -/
def runLoop (cfg : RunCfg) : LoopSt :=
  (List.range' cfg.start_epoch (cfg.max_epoch - cfg.start_epoch)).foldl
    (runEpoch cfg) initLoopSt

/-- The outcome of `Engine.run`: the per-epoch batch log, the persisted
checkpoints, and the returned scalar (or the exception raised). -/
structure RunResult where
  log : List (ℕ × ℕ)
  saves : List SaveRec
  ret : Except RunErr ℚ
deriving Repr

/-- Embedding of `Engine.run` with `test_only=False` (engine.py lines 257-423):
the epoch loop, then the final block (engine.py lines 395-423): when
`max_epoch > 0` a forced final test runs, the selector is consulted once more
and a final checkpoint is saved (when `save_chkpt` and not `lr_finder`);
`return top1_final` raises `UnboundLocalError` when the `max_epoch > 0` block
never assigned `top1_final`.  The metric-discarding pre-loop test call
(engine.py line 330, `Test before training`) touches none of the observables
recorded here and is omitted. -/
def Engine.run (cfg : RunCfg) : RunResult :=
  let st := runLoop cfg
  if 0 < cfg.max_epoch then
    let top1_final := cfg.top1_at st.last_epoch
    if cfg.save_chkpt && !cfg.lr_finder then
      match st.last_epoch with
      | some e =>
        let r := exit_on_plateau_and_choose_best cfg.lb_lr cfg.train_patience
          st.sel st.lr_prev top1_final
        { log := st.log, saves := st.saves ++ [⟨e, r.2.2, true⟩],
          ret := .ok top1_final }
      | none =>
        -- start_epoch ≥ max_epoch > 0: the loop body never ran, `self.epoch`
        -- is still `None`, and `save_model` computes `None + 1`.
        { log := st.log, saves := st.saves, ret := .error .noneEpochArith }
    else { log := st.log, saves := st.saves, ret := .ok top1_final }
  else { log := st.log, saves := st.saves, ret := .error .unboundLocalTop1Final }

/-! ## Concrete configurations used by closed theorems -/

/-- A run in which the stop signal fires after the first batch of epoch 0:
two epochs of three batches each, no periodic evaluation (`eval_freq = -1`),
checkpointing on. -/
def cfgStopMidEpoch : RunCfg :=
  { start_epoch := 0, max_epoch := 2, num_batches := 3, start_eval := 0,
    eval_freq := -1, save_chkpt := true, early_stoping := false,
    lr_finder := false, lb_lr := Rat.divInt 1 100000, train_patience := 10,
    stop_at := some 1, lr_at := fun _ => 1, top1_at := fun _ => 50 }

/-- A run with periodic evaluation every epoch and no stop signal, so the
in-loop periodic save fires at epoch 0. -/
def cfgPeriodicSave : RunCfg :=
  { start_epoch := 0, max_epoch := 2, num_batches := 1, start_eval := 0,
    eval_freq := 1, save_chkpt := true, early_stoping := false,
    lr_finder := false, lb_lr := Rat.divInt 1 100000, train_patience := 10,
    stop_at := none, lr_at := fun _ => 1, top1_at := fun _ => 50 }

/-- A training run invoked with `max_epoch = 0`. -/
def cfgZeroEpochs : RunCfg :=
  { start_epoch := 0, max_epoch := 0, num_batches := 1, start_eval := 0,
    eval_freq := -1, save_chkpt := true, early_stoping := false,
    lr_finder := false, lb_lr := Rat.divInt 1 100000, train_patience := 10,
    stop_at := none, lr_at := fun _ => 1, top1_at := fun _ => 50 }

/-! # Theorems -/

/-! ## Helper lemmas -/

/-- Sanity check of the rounding rule: `np.round` rounds the tie `0.00015` up
to `0.0002` (preceding integer odd) and the tie `0.00005` down to `0` (even),
and rounds `-0.00051` to `-0.0005`. -/
theorem np_round4_halfEven_examples :
    np_round4 (Rat.divInt 3 20000) = Rat.divInt 2 10000 ∧
    np_round4 (Rat.divInt 1 20000) = 0 ∧
    np_round4 (Rat.divInt (-51) 100000) = Rat.divInt (-5) 10000 := by decide

/-- After any call, `lr_prev_best_metric` equals the `lr_of_previous_iter`
read at the start of the call: the not-best branch requires equality as its
guard, the best branch assigns it. -/
theorem sel_lr_prev_after (lb_lr : ℚ) (p : ℕ) (s : SelState) (lr : Option ℚ) (t : ℚ) :
    (exit_on_plateau_and_choose_best lb_lr p s lr t).1.lr_prev_best_metric = lr := by
  simp only [exit_on_plateau_and_choose_best]
  split
  · next h => simpa using h.1
  · rfl

/-! ## C6: epoch-interval policy -/

/-- C6 (confirmed): for every `EpochIntervalToValue` interval and every epoch,
`_get_cur_action_from_epoch_interval` returns `value_outside` if the epoch is
strictly below `first` (when set) or strictly above `last` (when set), returns
`value_inside` otherwise, and raises a configuration error exactly when both
bounds are unset. -/
theorem epoch_interval_policy_spec {α : Type} (i : EpochIntervalToValue α) (epoch : ℤ) :
    (i.first = none ∧ i.last = none →
      _get_cur_action_from_epoch_interval i epoch = .error "Wrong epoch_interval") ∧
    (∀ f, i.first = some f → epoch < f →
      _get_cur_action_from_epoch_interval i epoch = .ok i.value_outside) ∧
    (∀ l, i.last = some l → l < epoch →
      _get_cur_action_from_epoch_interval i epoch = .ok i.value_outside) ∧
    (¬(i.first = none ∧ i.last = none) →
      (∀ f, i.first = some f → f ≤ epoch) →
      (∀ l, i.last = some l → epoch ≤ l) →
      _get_cur_action_from_epoch_interval i epoch = .ok i.value_inside) := by
  refine ⟨fun h => ?_, fun f hf hlt => ?_, fun l hl hlt => ?_, fun hne hf hl => ?_⟩
  · simp [_get_cur_action_from_epoch_interval, h.1, h.2]
  · simp [_get_cur_action_from_epoch_interval, hf, epochBelowFirst, hlt]
  · rcases hcase : i.first with _ | f
    · simp [_get_cur_action_from_epoch_interval, hcase, hl, epochBelowFirst,
        epochAboveLast, hlt]
    · by_cases hb : epoch < f
      · simp [_get_cur_action_from_epoch_interval, hcase, epochBelowFirst, hb]
      · simp [_get_cur_action_from_epoch_interval, hcase, hl, epochBelowFirst,
          epochAboveLast, hb, hlt]
  · have hbf : epochBelowFirst i.first epoch = false := by
      rcases hcase : i.first with _ | f
      · simp [epochBelowFirst, hcase]
      · have hfe := hf f hcase
        simp only [hcase, epochBelowFirst, decide_eq_false_iff_not]
        omega
    have hal : epochAboveLast i.last epoch = false := by
      rcases hcase : i.last with _ | l
      · simp [epochAboveLast, hcase]
      · have hle := hl l hcase
        simp only [hcase, epochAboveLast, decide_eq_false_iff_not]
        omega
    simp [_get_cur_action_from_epoch_interval, hne, hbf, hal]

/-- C6 witness: a concrete interval `[2, 5]` with epoch `1` strictly below the
lower bound yields `value_outside`. -/
theorem epoch_interval_policy_spec_witness :
    _get_cur_action_from_epoch_interval
      (EpochIntervalToValue.mk (some 2) (some 5) true false) (1 : ℤ) = .ok false :=
  (epoch_interval_policy_spec (EpochIntervalToValue.mk (some 2) (some 5) true false) 1).2.1
    2 rfl (by decide)

/-! ## C9: `lr_prev_best_metric` tracks the LR of the most recent call -/

/-- C9 (confirmed): after every call to `exit_on_plateau_and_choose_best`,
whichever branch is taken, `lr_prev_best_metric` equals the
`lr_of_previous_iter` value read at the start of that call: the not-best
branch requires the equality as its guard, the best branch assigns it.  Hence
`lr_prev_best_metric` always tracks the LR of the most recent call. -/
theorem sel_lr_prev_tracks_last_call (lb_lr : ℚ) (train_patience : ℕ) (s : SelState)
    (lr_of_previous_iter : Option ℚ) (top1 : ℚ) :
    (exit_on_plateau_and_choose_best lb_lr train_patience s lr_of_previous_iter
      top1).1.lr_prev_best_metric = lr_of_previous_iter :=
  sel_lr_prev_after lb_lr train_patience s lr_of_previous_iter top1

/-! ## C7: any LR change resets the selector -/

/-- C7 (confirmed): for two consecutive calls to
`exit_on_plateau_and_choose_best` whose `lr_of_previous_iter` values differ,
the second call resets `iter_to_wait` to `0` and returns
`is_candidate_for_best = true`, regardless of the metric values. -/
theorem sel_lr_change_resets (lb_lr : ℚ) (train_patience : ℕ) (s : SelState)
    (lr1 lr2 : Option ℚ) (t1 t2 : ℚ) (h : lr1 ≠ lr2) :
    (exit_on_plateau_and_choose_best lb_lr train_patience
        (exit_on_plateau_and_choose_best lb_lr train_patience s lr1 t1).1
        lr2 t2).1.iter_to_wait = 0 ∧
    (exit_on_plateau_and_choose_best lb_lr train_patience
        (exit_on_plateau_and_choose_best lb_lr train_patience s lr1 t1).1
        lr2 t2).2.2 = true := by
  have h1 := sel_lr_prev_after lb_lr train_patience s lr1 t1
  set s1 := (exit_on_plateau_and_choose_best lb_lr train_patience s lr1 t1).1
  have hcond : ¬(s1.lr_prev_best_metric = lr2 ∧
      np_round4 t2 ≤ s1.best_metric) := by
    intro hc
    exact h (h1 ▸ hc.1)
  constructor
  · simp only [exit_on_plateau_and_choose_best, if_neg hcond]
  · simp only [exit_on_plateau_and_choose_best, if_neg hcond]

/-- C7 witness: concretely, a call at LR `2` right after a call at LR `1`
resets `iter_to_wait` and is marked a best-candidate even though its metric
`10` is far below the previous best `50`. -/
theorem sel_lr_change_resets_witness :
    (exit_on_plateau_and_choose_best (Rat.divInt 1 100000) 3
        (exit_on_plateau_and_choose_best (Rat.divInt 1 100000) 3 initSelState (some 1) 50).1
        (some 2) 10).1.iter_to_wait = 0 ∧
    (exit_on_plateau_and_choose_best (Rat.divInt 1 100000) 3
        (exit_on_plateau_and_choose_best (Rat.divInt 1 100000) 3 initSelState (some 1) 50).1
        (some 2) 10).2.2 = true :=
  sel_lr_change_resets (Rat.divInt 1 100000) 3 initSelState (some 1) (some 2) 50 10 (by decide)

/-! ## C2: plateau at the floor LR exits after `train_patience` waits -/

/-- C2 (confirmed): with `train_patience = 3`, floor `lb_lr = 1e-5`, four
consecutive calls at `lr_of_previous_iter = 1e-5` with constant top-1 `50`,
starting from the initial selector state
(`best_metric = 0.0`, `iter_to_wait = 0`, `lr_prev_best_metric = None`), the
`should_exit` results are `[False, False, False, True]`: the first call is a
best-candidate for the new LR bucket, and `should_exit` becomes true exactly
on the third consecutive non-improving call, not before. -/
theorem plateau_scenario_b :
    (runSelector (Rat.divInt 1 100000) 3 initSelState
        (List.replicate 4 (some (Rat.divInt 1 100000), (50 : ℚ)))).map
      (fun r => r.2.1) = [false, false, false, true] := by decide

/-! ## C8: strictly increasing top-1 values at constant LR -/

/-- C8 counterexample: the top-1 values `50.000001 < 50.000002` are strictly
increasing and `lr_of_previous_iter` is constantly `some 1`, yet the second
call is NOT marked a best-candidate and `iter_to_wait` rises to `1`: both
values round to `50.0` under `np.round(top1, 4)`, so the second call falls
into the not-best branch.  This refutes the claim for raw strictly increasing
top-1 sequences. -/
theorem strict_top1_increase_counterexample :
    Rat.divInt 50000001 1000000 < Rat.divInt 50000002 1000000 ∧
    (runSelector (Rat.divInt 1 100000) 10 initSelState
        [(some 1, Rat.divInt 50000001 1000000),
         (some 1, Rat.divInt 50000002 1000000)]).map
      (fun r => (r.2.2, r.1.iter_to_wait)) = [(true, 0), (false, 1)] := by decide

/-- Helper for C8: once `lr_prev_best_metric` matches the constant LR, a
sequence of calls whose ROUNDED top-1 values strictly increase above the
current `best_metric` takes the best branch at every call. -/
theorem runSelector_chain_candidates (lb_lr : ℚ) (p : ℕ) (l : ℚ) (vals : List ℚ) :
    ∀ (s : SelState), s.lr_prev_best_metric = some l →
      List.Chain (· < ·) s.best_metric (vals.map np_round4) →
      ∀ r ∈ runSelector lb_lr p s (vals.map (fun v => (some l, v))),
        r.2.2 = true ∧ r.1.iter_to_wait = 0 := by
  induction vals with
  | nil =>
    intro s _ _ r hr
    simp [runSelector] at hr
  | cons v vs ih =>
    intro s hprev hchain r hr
    rw [List.map_cons, List.chain_cons] at hchain
    obtain ⟨hlt, hrest⟩ := hchain
    have hcond : ¬(s.lr_prev_best_metric = some l ∧ np_round4 v ≤ s.best_metric) := by
      rintro ⟨-, hle⟩
      exact absurd hlt (not_lt.mpr hle)
    simp only [List.map_cons, runSelector, List.mem_cons] at hr
    rcases hr with hr | hr
    · subst hr
      refine ⟨?_, ?_⟩
      · simp only [exit_on_plateau_and_choose_best, if_neg hcond]
      · simp only [exit_on_plateau_and_choose_best, if_neg hcond]
    · have hstep : (exit_on_plateau_and_choose_best lb_lr p s (some l) v).1 =
          { best_metric := np_round4 v, iter_to_wait := 0,
            lr_prev_best_metric := some l } := by
        simp only [exit_on_plateau_and_choose_best, if_neg hcond]
      exact ih _ (by rw [hstep]) (by rw [hstep]; exact hrest) r hr

/-- C8 (corrected, amended): for every sequence of top-1 values whose
4-decimal roundings `np_round4` are strictly increasing, fed to
`exit_on_plateau_and_choose_best` from the initial selector state while
`lr_of_previous_iter` stays constant (and not `None`), every call returns
`is_candidate_for_best = true` and `iter_to_wait` is `0` after every call.
(The original claim, for raw strictly increasing values, fails because of the
rounding — see the counterexample.) -/
theorem sel_strictly_increasing_rounded (lb_lr : ℚ) (p : ℕ) (l : ℚ) (vals : List ℚ)
    (h : (vals.map np_round4).Chain' (· < ·)) :
    (runSelector lb_lr p initSelState (vals.map (fun v => (some l, v)))).all
      (fun r => r.2.2 && decide (r.1.iter_to_wait = 0)) = true := by
  rw [List.all_eq_true]
  intro r hr
  suffices hs : r.2.2 = true ∧ r.1.iter_to_wait = 0 by
    simp [hs.1, hs.2]
  cases vals with
  | nil => simp [runSelector] at hr
  | cons v vs =>
    have hcond : ¬(initSelState.lr_prev_best_metric = some l ∧
        np_round4 v ≤ initSelState.best_metric) := by
      rintro ⟨hceq, -⟩
      exact Option.noConfusion hceq
    simp only [List.map_cons, runSelector, List.mem_cons] at hr
    rcases hr with hr | hr
    · subst hr
      refine ⟨?_, ?_⟩
      · simp only [exit_on_plateau_and_choose_best, if_neg hcond]
      · simp only [exit_on_plateau_and_choose_best, if_neg hcond]
    · have hstep : (exit_on_plateau_and_choose_best lb_lr p initSelState (some l) v).1 =
          { best_metric := np_round4 v, iter_to_wait := 0,
            lr_prev_best_metric := some l } := by
        simp only [exit_on_plateau_and_choose_best, if_neg hcond]
      have hchain : List.Chain (· < ·) (np_round4 v) (vs.map np_round4) := by
        rw [List.map_cons] at h
        exact h
      exact runSelector_chain_candidates lb_lr p l vs _ (by rw [hstep])
        (by rw [hstep]; exact hchain) r hr

/-- C8 witness: for the concrete strictly increasing (already 4-decimal)
values `[50, 51]` at constant LR `1`, every call is a best-candidate with
`iter_to_wait = 0`. -/
theorem sel_strictly_increasing_rounded_witness :
    (runSelector 1 3 initSelState ([(50 : ℚ), 51].map (fun v => (some (1 : ℚ), v)))).all
      (fun r => r.2.2 && decide (r.1.iter_to_wait = 0)) = true :=
  sel_strictly_increasing_rounded 1 3 1 [50, 51] (List.chain'_pair.mpr (by decide))

/-! ## C1: the dispatcher and the first registered model -/

/-- C1 counterexample: with model 0 contrastive-tagged (its branch is `pass`)
and model 1 classification-tagged, over the two datasets `d1` then `d2`, the
`cur_*` triple still holds MODEL 1's result for `d1` when the `model_id == 0`
copy runs on `d2`, so `Engine.test` returns model 1's tuple `(1, d1)`;
registering model 0 alone returns `none` instead.  The returned tuple is thus
neither "the metric tuple produced by the model registered first" nor
"independent of how many other models are registered". -/
theorem test_first_model_counterexample :
    Engine.test (T := ℕ × String) (fun m d => (m, d)) (fun m d => (m, d))
      [.contrastive, .classification] ["d1", "d2"] = some (1, "d1") ∧
    Engine.test (T := ℕ × String) (fun m d => (m, d)) (fun m d => (m, d))
      [.contrastive] ["d1", "d2"] = none := by
  exact ⟨rfl, rfl⟩

/-- Helper for C1: the model loop never writes the returned triple once the
`enumerate` counter has passed `model_id = 0`. -/
theorem testModelLoop_fst_const {T : Type} (evalCls evalReid : ℕ → String → T)
    (ds : String) :
    ∀ (l : List ModelTag) (mid : ℕ) (st : Option T × Option T), mid ≠ 0 →
      (testModelLoop evalCls evalReid ds mid l st).1 = st.1 := by
  intro l
  induction l with
  | nil => intro mid st _; rfl
  | cons tag rest ih =>
    intro mid st hmid
    simp only [testModelLoop, if_neg hmid]
    exact ih (mid + 1) _ (Nat.succ_ne_zero mid)

/-- C1 (corrected, amended): whenever the first registered model's evaluation
on the LAST configured dataset produces a metric tuple — it is
classification-tagged, or default(reid)-tagged on a non-`lfw` dataset — the
tuple returned by `Engine.test` is exactly the first model's tuple for that
dataset, independent of how many other models are registered and of the
earlier datasets.  (When model 0 is contrastive-tagged or is routed to the
pairwise evaluator on the last dataset, the stale running value — possibly a
later model's tuple from an earlier dataset — is returned instead; see the
counterexample.) -/
theorem test_returns_first_model_on_last_dataset {T : Type}
    (evalCls evalReid : ℕ → String → T) (t : ModelTag) (rest : List ModelTag)
    (ds : List String) (d : String)
    (h : t = .classification ∨ (t = .reid ∧ d ≠ "lfw")) :
    Engine.test evalCls evalReid (t :: rest) (ds ++ [d]) =
      some (if t = .classification then evalCls 0 d else evalReid 0 d) := by
  unfold Engine.test
  rw [List.foldl_append]
  simp only [List.foldl_cons, List.foldl_nil]
  set st := (List.foldl (fun st ds => testModelLoop evalCls evalReid ds 0 (t :: rest) st)
    (none, none) ds) with hst
  have hcur : testEvalStep evalCls evalReid d 0 t st.2 =
      some (if t = .classification then evalCls 0 d else evalReid 0 d) := by
    rcases h with h | ⟨h, hd⟩
    · subst h; rfl
    · subst h
      simp only [testEvalStep, if_neg hd]
      rfl
  simp only [testModelLoop, if_pos rfl, hcur]
  rw [testModelLoop_fst_const evalCls evalReid d rest 1 _ one_ne_zero]
  simp

/-- C1 witness: a concrete call with a classification-tagged first model, one
extra model and two datasets returns the first model's tuple on the last
dataset. -/
theorem test_returns_first_model_witness :
    Engine.test (fun m _ => m) (fun m _ => m + 100)
      [ModelTag.classification, ModelTag.reid] (["a"] ++ ["b"]) = some 0 := by
  have h := test_returns_first_model_on_last_dataset (fun m _ => m)
    (fun m _ => m + 100) ModelTag.classification [ModelTag.reid] ["a"] "b"
    (Or.inl rfl)
  simpa using h

/-! ## C5: the freeze contract of the `Engine.train` prologue -/

/-- C5 counterexample: on an epoch NOT flagged for freezing, with the
two-stepped-transfer-learning regime active (`epoch + 1 ≤ fixbase_epoch` and
`open_layers = ["head"]`), an auxiliary unit with layers `["base", "head"]`
ends the prologue in train mode but with only `["head"]` trainable — not
"train mode with all layers open" as the claim states. -/
theorem aux_freeze_contract_counterexample :
    (train_prologue_aux false 0 1 (some ["head"])
        (ModelUnit.mk ["base", "head"] false [])).training = true ∧
    (train_prologue_aux false 0 1 (some ["head"])
        (ModelUnit.mk ["base", "head"] false [])).trainable = ["head"] ∧
    (["head"] : List String) ≠ ["base", "head"] := by
  refine ⟨rfl, rfl, by decide⟩

/-- C5 (corrected, amended): after the `Engine.train` prologue has run for an
epoch, an auxiliary model unit satisfies: if the epoch is flagged for
auxiliary freezing, the unit is in eval mode with zero trainable layers; if
the epoch is not flagged, the unit is in train mode, and all its layers are
open UNLESS the two-stepped-transfer-learning regime is active
(`epoch + 1 ≤ fixbase_epoch` with `open_layers` configured), in which case
exactly its layers listed in `open_layers` are trainable.  (The original
claim's "all layers open" clause fails in the fixbase regime — see the
counterexample.) -/
theorem aux_freeze_contract (freeze_flag : Bool) (epoch fixbase_epoch : ℕ)
    (open_layers : Option (List String)) (u : ModelUnit) :
    (freeze_flag = true →
      (train_prologue_aux freeze_flag epoch fixbase_epoch open_layers u).training = false ∧
      (train_prologue_aux freeze_flag epoch fixbase_epoch open_layers u).trainable = []) ∧
    (freeze_flag = false →
      (train_prologue_aux freeze_flag epoch fixbase_epoch open_layers u).training = true ∧
      ((open_layers = none ∨ fixbase_epoch < epoch + 1) →
        (train_prologue_aux freeze_flag epoch fixbase_epoch open_layers u).trainable =
          u.layers) ∧
      (∀ ls, open_layers = some ls → epoch + 1 ≤ fixbase_epoch →
        (train_prologue_aux freeze_flag epoch fixbase_epoch open_layers u).trainable =
          u.layers.filter (fun l => ls.contains l))) := by
  constructor
  · intro hf
    subst hf
    constructor
    · simp [train_prologue_aux, _freeze_aux_model_unit, open_specified_layers,
        ModelUnit.evalMode]
    · simp [train_prologue_aux, _freeze_aux_model_unit, open_specified_layers,
        ModelUnit.evalMode, two_stepped_transfer_learning_unit, open_all_layers,
        ModelUnit.trainMode]
  · intro hf
    subst hf
    refine ⟨?_, ?_, ?_⟩
    · rcases open_layers with _ | ls
      · rfl
      · by_cases hle : epoch + 1 ≤ fixbase_epoch
        · simp [train_prologue_aux, two_stepped_transfer_learning_unit, if_pos hle,
            open_specified_layers, _unfreeze_aux_model_unit, open_all_layers,
            ModelUnit.trainMode]
        · simp [train_prologue_aux, two_stepped_transfer_learning_unit, if_neg hle,
            _unfreeze_aux_model_unit, open_all_layers, ModelUnit.trainMode]
    · intro hcase
      rcases hcase with hnone | hlate
      · subst hnone
        simp [train_prologue_aux, _unfreeze_aux_model_unit, open_all_layers,
          ModelUnit.trainMode, two_stepped_transfer_learning_unit]
      · rcases open_layers with _ | ls
        · simp [train_prologue_aux, _unfreeze_aux_model_unit, open_all_layers,
            ModelUnit.trainMode, two_stepped_transfer_learning_unit]
        · have hno : ¬(epoch + 1 ≤ fixbase_epoch) := by omega
          simp [train_prologue_aux, _unfreeze_aux_model_unit, open_all_layers,
            ModelUnit.trainMode, two_stepped_transfer_learning_unit, if_neg hno]
    · intro ls hls hfix
      subst hls
      simp [train_prologue_aux, _unfreeze_aux_model_unit, open_all_layers,
        ModelUnit.trainMode, two_stepped_transfer_learning_unit, if_pos hfix,
        open_specified_layers]

/-- C5 witness: a flagged epoch leaves the concrete auxiliary unit in eval
mode with zero trainable layers, and an unflagged epoch outside the fixbase
regime leaves it in train mode with all layers open. -/
theorem aux_freeze_contract_witness :
    ((train_prologue_aux true 0 0 none (ModelUnit.mk ["a"] true ["a"])).training = false ∧
      (train_prologue_aux true 0 0 none (ModelUnit.mk ["a"] true ["a"])).trainable = []) ∧
    ((train_prologue_aux false 0 0 none (ModelUnit.mk ["a"] true ["a"])).training = true ∧
      (train_prologue_aux false 0 0 none (ModelUnit.mk ["a"] true ["a"])).trainable = ["a"]) :=
  ⟨(aux_freeze_contract true 0 0 none (ModelUnit.mk ["a"] true ["a"])).1 rfl,
   ((aux_freeze_contract false 0 0 none (ModelUnit.mk ["a"] true ["a"])).2 rfl).1,
   ((aux_freeze_contract false 0 0 none (ModelUnit.mk ["a"] true ["a"])).2 rfl).2.1
     (Or.inl rfl)⟩

/-! ## C3: the retrieval evaluator raises on feature extraction -/

/-- C3 (code bug): for every model and every NON-EMPTY query loader,
`_evaluate_reid` does not return `(cmc[0], cmc[1], mAP)` as the spec states
but raises `AttributeError` while extracting the query features: engine.py
line 670 reads `features = model(imgs),` — the trailing comma builds the
1-tuple `(model(imgs),)` — and line 671 then calls `features.data.cpu()` on
that tuple.  The spec describes the obvious intent; the trailing comma is the
slip. -/
theorem reid_evaluation_raises (model : ℕ → ℕ) (query_loader gallery_loader : List ℕ)
    (rank : PyObj → PyObj → ℚ × ℚ × ℚ) (h : query_loader ≠ []) :
    _evaluate_reid model query_loader gallery_loader rank =
      .error "AttributeError: tuple object has no attribute data" := by
  cases query_loader with
  | nil => exact absurd rfl h
  | cons b rest => rfl

/-- C3 witness: the failing input — a query loader with a single batch. -/
theorem reid_evaluation_raises_witness :
    _evaluate_reid (fun b => b) [0] [] (fun _ _ => (0, 0, 0)) =
      .error "AttributeError: tuple object has no attribute data" :=
  reid_evaluation_raises (fun b => b) [0] [] (fun _ _ => (0, 0, 0)) (by decide)

/-! ## C4 and C10: the run loop, cancellation, checkpoints and return value -/

/-- The stop signal is sticky: once positive it stays positive. -/
theorem stopFired_mono (cfg : RunCfg) {a b : ℕ} (hab : a ≤ b)
    (h : stopFired cfg a = true) : stopFired cfg b = true := by
  cases hsa : cfg.stop_at with
  | none => rw [stopFired, hsa] at h; exact absurd h (by simp)
  | some k =>
    rw [stopFired, hsa] at h ⊢
    simp only [decide_eq_true_eq] at h ⊢
    omega

/-- If the stop signal has not fired by the end of the epoch's batch loop,
the loop ran all its batches. -/
theorem trainBatchCount_full (cfg : RunCfg) : ∀ (r g : ℕ),
    stopFired cfg (g + trainBatchCount cfg g r) = false →
    trainBatchCount cfg g r = r := by
  intro r
  induction r with
  | zero => intro g _; rfl
  | succ n ih =>
    intro g h
    by_cases hs : stopFired cfg (g + 1) = true
    · exfalso
      rw [trainBatchCount, if_pos hs] at h
      have := stopFired_mono cfg (Nat.le_add_right (g + 1) 0) hs
      rw [h] at hs
      exact Bool.noConfusion hs
    · rw [trainBatchCount, if_neg hs] at h ⊢
      have harith : g + (1 + trainBatchCount cfg (g + 1) n) =
          (g + 1) + trainBatchCount cfg (g + 1) n := by omega
      rw [harith] at h
      rw [ih (g + 1) h]
      omega

/-- One epoch of the loop preserves the invariant "every non-final save so far
is of an epoch logged as fully run": the in-loop periodic save only executes
on the no-stop path, where the whole epoch completed. -/
theorem runEpoch_savesOK (cfg : RunCfg) (st : LoopSt) (e : ℕ)
    (hinv : ∀ s ∈ st.saves, s.final = false → (s.epoch, cfg.num_batches) ∈ st.log) :
    ∀ s ∈ (runEpoch cfg st e).saves, s.final = false →
      (s.epoch, cfg.num_batches) ∈ (runEpoch cfg st e).log := by
  intro s hs hf
  simp only [runEpoch] at hs ⊢
  split_ifs at hs ⊢ with h1 h2 h3 h4 h5 h6 h7 h8
  all_goals try simp only [List.mem_append, List.mem_singleton] at hs ⊢
  all_goals try exact hinv s hs hf
  all_goals try exact Or.inl (hinv s hs hf)
  all_goals rcases hs with hs | hs
  all_goals try exact Or.inl (hinv s hs hf)
  all_goals subst hs
  all_goals refine Or.inr ?_
  all_goals rw [trainBatchCount_full cfg cfg.num_batches st.global_ (by
    simp only [Bool.not_eq_true] at h2
    exact h2)]

/-- The whole epoch loop maintains the invariant of `runEpoch_savesOK`. -/
theorem runLoop_savesOK (cfg : RunCfg) :
    ∀ s ∈ (runLoop cfg).saves, s.final = false →
      (s.epoch, cfg.num_batches) ∈ (runLoop cfg).log := by
  unfold runLoop
  suffices h : ∀ (l : List ℕ) (st : LoopSt),
      (∀ s ∈ st.saves, s.final = false → (s.epoch, cfg.num_batches) ∈ st.log) →
      ∀ s ∈ (l.foldl (runEpoch cfg) st).saves, s.final = false →
        (s.epoch, cfg.num_batches) ∈ (l.foldl (runEpoch cfg) st).log by
    exact h _ initLoopSt (by simp [initLoopSt])
  intro l
  induction l with
  | nil => intro st h; exact h
  | cons e rest ih =>
    intro st h
    exact ih (runEpoch cfg st e) (runEpoch_savesOK cfg st e h)

/-- C4 counterexample: in `cfgStopMidEpoch` the stop signal fires after the
first of the three batches of epoch 0; the loop exits, yet the post-loop
final save (engine.py line 410) still persists a checkpoint for epoch 0 —
an epoch that completed only 1 of its 3 batches.  This refutes "no
partially completed epoch ever produces a persisted checkpoint". -/
theorem run_saves_interrupted_epoch :
    (Engine.run cfgStopMidEpoch).log = [(0, 1)] ∧
    (Engine.run cfgStopMidEpoch).saves = [SaveRec.mk 0 true true] ∧
    cfgStopMidEpoch.num_batches = 3 := by
  refine ⟨by decide, by decide, rfl⟩

/-- C4 (corrected, amended): when the stop signal becomes positive the loop
exits at the next batch or epoch boundary, and every IN-LOOP periodic
checkpoint is of a fully completed epoch: for every configuration, every save
not flagged as the post-loop final save corresponds to a logged epoch that ran
all `num_batches` batches.  (The post-loop final save still runs after a stop
and may persist a checkpoint labelled with the interrupted epoch — see the
counterexample.) -/
theorem run_inloop_saves_only_complete_epochs (cfg : RunCfg) :
    ∀ s ∈ (Engine.run cfg).saves, s.final = false →
      (s.epoch, cfg.num_batches) ∈ (Engine.run cfg).log := by
  intro s hs hf
  have hloop := runLoop_savesOK cfg
  simp only [Engine.run] at hs ⊢
  split_ifs at hs ⊢ with h1 h2
  · rcases hmatch : (runLoop cfg).last_epoch with _ | efin
    all_goals rw [hmatch] at hs
    · exact hloop s hs hf
    · simp only [List.mem_append, List.mem_singleton] at hs
      rcases hs with hs | hs
      · exact hloop s hs hf
      · subst hs
        exact absurd hf (by simp)
  · exact hloop s hs hf
  · exact hloop s hs hf

/-- C4 witness: in `cfgPeriodicSave` the periodic save of epoch 0 is an
in-loop save, and the theorem yields that epoch 0 is logged with all
`num_batches` batches run. -/
theorem run_inloop_saves_witness :
    ((0 : ℕ), cfgPeriodicSave.num_batches) ∈ (Engine.run cfgPeriodicSave).log :=
  run_inloop_saves_only_complete_epochs cfgPeriodicSave (SaveRec.mk 0 true false)
    (by decide) rfl

/-- C10 (confirmed): a training run (`test_only=False`) with `max_epoch = 0`
skips both the epoch loop and the final-test block, so `return top1_final`
references the never-assigned local `top1_final` and `Engine.run` raises
instead of returning a metric; conversely a normal scalar return requires
`max_epoch > 0`. -/
theorem run_zero_epochs_raises (cfg : RunCfg) :
    (cfg.max_epoch = 0 →
      (Engine.run cfg).ret = .error .unboundLocalTop1Final) ∧
    (∀ q : ℚ, (Engine.run cfg).ret = .ok q → 0 < cfg.max_epoch) := by
  have hzero : cfg.max_epoch = 0 →
      (Engine.run cfg).ret = .error .unboundLocalTop1Final := by
    intro h
    simp only [Engine.run]
    rw [if_neg (by omega)]
  refine ⟨hzero, fun q hq => ?_⟩
  by_contra hlt
  have h0 : cfg.max_epoch = 0 := by omega
  rw [hzero h0] at hq
  exact Except.noConfusion hq

/-- C10 witness: the concrete configuration `cfgZeroEpochs` with
`max_epoch = 0` makes `Engine.run` raise `UnboundLocalError`. -/
theorem run_zero_epochs_raises_witness :
    (Engine.run cfgZeroEpochs).ret = .error .unboundLocalTop1Final :=
  (run_zero_epochs_raises cfgZeroEpochs).1 rfl
